import Mathlib

/-!
Verification development for the newserv proxy/server core
(src/ProxyCommands.cc and src/SendCommands.cc).

The C++ source is shallowly embedded: machine integers become `Nat` with
explicit `% 2^w` where overflow matters, byte buffers become `List Nat`
(each element a byte value), fallible code returns `Except String`, and each
command handler becomes a Lean function mirroring the corresponding C++
function statement by statement.  Wire-structure types whose exact layouts
live in headers outside the excerpted sources are represented at field level,
with the fields the excerpted code actually reads and writes.
-/

set_option maxRecDepth 8000

namespace Newserv

/-- The six game versions, in the order of the proxy handler tables
(`server_handlers` / `client_handlers` in ProxyCommands.cc), which is the
numeric order of the C++ `GameVersion` enum. -/
inductive GameVersion where
  | DC
  | PC
  | PATCH
  | GC
  | XB
  | BB
deriving DecidableEq, Repr

/-- Result kinds a proxy command handler can return (`HandlerResult::Type`). -/
inductive HRType where
  | FORWARD
  | SUPPRESS
  | MODIFIED
deriving DecidableEq, Repr

/-- `HandlerResult`: result type plus optional command/flag replacement;
`-1` means "use the original value" exactly as in the C++ struct. -/
structure HandlerResult where
  type : HRType
  new_command : Int := -1
  new_flag : Int := -1
deriving DecidableEq, Repr

/-- A license record; only `serial_number` is read by the excerpted code
paths we verify. -/
structure License where
  serial_number : Nat
deriving DecidableEq, Repr

/-- The bits of `Client::Flag` that the excerpted handlers touch, modelled as
named booleans (the numeric bit positions live in a header outside the
excerpt and no claim depends on them). -/
structure ClientFlags where
  save_enabled : Bool
  no_message_box_close_confirmation : Bool
  no_message_box_close_confirmation_after_lobby_join : Bool
deriving DecidableEq, Repr

/-- The newserv client config blob carried by the session
(`session.newserv_client_config.cfg`): the flag bits the handlers read or
write, plus the remaining opaque contents. -/
structure ClientConfig where
  flags : ClientFlags
  rest : Nat
deriving DecidableEq, Repr

/-- One slot of the session's 12-slot lobby-player mirror
(`ProxyServer::LinkedSession::LobbyPlayer`). -/
structure LobbyPlayer where
  guild_card_number : Nat
  name : String
deriving DecidableEq, Repr

/-- An IPv4 socket address as the handlers see it: `sin_family`,
`sin_addr.s_addr` (raw 32-bit value) and `sin_port` (raw 16-bit value as
stored, i.e. network byte order when written via `htons`). -/
structure SockAddrIn where
  family : Nat
  addr : Nat
  port : Nat
deriving DecidableEq, Repr

/-- `AF_INET` (numeric value irrelevant to the proofs; kept concrete so the
model stays executable). -/
def AF_INET : Nat := 2

/-- `htons` on a 16-bit value: swap the two bytes. -/
def htons (p : Nat) : Nat := (p % 256) * 256 + (p / 256) % 256

/-- `ntohs` is the same byte swap. -/
def ntohs (p : Nat) : Nat := htons p

/-- Identity of one `PSOBBMultiKeyDetectorEncryption` object: the candidate
key pool (`s->bb_private_keys`, abstract id), the expected first plaintext,
and the raw key bytes it was constructed with. -/
structure DetectorSpec where
  possible_keys : Nat
  expected_first_data : List Nat
  key : List Nat
deriving DecidableEq, Repr

/-- A cipher object installed on a channel half.  `bbImitator`'s fields are
the detector it references, its own key material, and the final `bool`
constructor argument. -/
inductive Crypt where
  | v2 (key : Nat)
  | v3 (key : Nat)
  | bbDetector (d : DetectorSpec)
  | bbImitator (d : DetectorSpec) (key : List Nat) (jp : Bool)
deriving DecidableEq, Repr

/-- One endpoint channel of a linked session: connection state, virtualness,
locally-bound address, and the two cipher halves. -/
structure Channel where
  connected : Bool
  is_virtual_connection : Bool
  local_addr : SockAddrIn
  crypt_in : Option Crypt
  crypt_out : Option Crypt
deriving DecidableEq, Repr

/-- `ProxyServer::LinkedSession`: the fields of the C++ session object that
the verified handlers read or write.  `connect_requested` records that
`session.connect()` was called. -/
structure LinkedSession where
  version : GameVersion
  license : Option License
  remote_guild_card_number : Nat
  lobby_players : List LobbyPlayer
  lobby_client_id : Nat
  leader_client_id : Nat
  newserv_client_config : ClientConfig
  client_channel : Channel
  server_channel : Channel
  next_destination : SockAddrIn
  local_port : Nat
  prev_server_command_bytes : List Nat
  detector_crypt : Option DetectorSpec
  login_command_bb : List Nat
  enable_remote_ip_crc_patch : Bool
  remote_ip_crc : Nat
  override_lobby_event : Int
  override_lobby_number : Int
  connect_requested : Bool
deriving DecidableEq, Repr

/-- Payload of a frame emitted by a handler, at the level of detail the
handlers construct them. -/
inductive Body where
  | raw (data : List Nat)
  | leaveLobby (leaving_id leader_id : Nat)
  | text (msg : String)
  | clientConfig (player_tag guild_card_number : Nat) (cfg : ClientConfig)
  | reconnect (address port : Nat)
deriving DecidableEq, Repr

/-- One `channel.send(...)` performed by a handler: destination channel
(`to_server`), command, flag, payload. -/
structure Send where
  to_server : Bool
  command : Nat
  flag : Nat
  body : Body
deriving DecidableEq, Repr

/-! ### Claim C1: identity rewriting for server 06 and client 40 -/

/-- `SC_TextHeader_01_06_11_B0_EE` at field level: the excerpted handlers
read and write only `guild_card_number` (the other header word is unused). -/
structure SC_TextHeader_01_06_11_B0_EE where
  unused : Nat
  guild_card_number : Nat
deriving DecidableEq, Repr

/-- `C_GuildCardSearch_40` at field level. -/
structure C_GuildCardSearch_40 where
  player_tag : Nat
  searcher_guild_card_number : Nat
  target_guild_card_number : Nat
deriving DecidableEq, Repr

/-- `process_server_dc_pc_v3_06`: on a licensed session, a guild-card field
equal to the remote guild-card number is rewritten to the license serial. -/
def process_server_dc_pc_v3_06 (session : LinkedSession)
    (cmd : SC_TextHeader_01_06_11_B0_EE) :
    HRType × SC_TextHeader_01_06_11_B0_EE :=
  match session.license with
  | some lic =>
    if cmd.guild_card_number = session.remote_guild_card_number then
      (HRType.MODIFIED, { cmd with guild_card_number := lic.serial_number })
    else
      (HRType.FORWARD, cmd)
  | none => (HRType.FORWARD, cmd)

/-- `process_client_40`: on a licensed session, searcher/target fields equal
to the license serial are rewritten to the remote guild-card number. -/
def process_client_40 (session : LinkedSession)
    (cmd : C_GuildCardSearch_40) : HRType × C_GuildCardSearch_40 :=
  match session.license with
  | some lic =>
    let cmd1 :=
      if cmd.searcher_guild_card_number = lic.serial_number then
        { cmd with searcher_guild_card_number := session.remote_guild_card_number }
      else cmd
    let cmd2 :=
      if cmd1.target_guild_card_number = lic.serial_number then
        { cmd1 with target_guild_card_number := session.remote_guild_card_number }
      else cmd1
    let modified :=
      cmd.searcher_guild_card_number = lic.serial_number ∨
        cmd.target_guild_card_number = lic.serial_number
    (if modified then HRType.MODIFIED else HRType.FORWARD, cmd2)
  | none => (HRType.FORWARD, cmd)

/-! ### Claim C9: exception handling in process_proxy_command -/

/-- Outcome of `process_proxy_command`: the frame forwarded to the opposite
channel, if any (destination `to_server` flag, command, flag, data), and
whether `session.disconnect()` was called. -/
structure ProxyOutcome where
  forwarded : Option (Bool × Nat × Nat × List Nat)
  disconnected : Bool
deriving DecidableEq, Repr

/-- `process_proxy_command`, parameterized by the handler `fn` selected by
`get_handler` for `(session.version, from_server, command)`.  The handler
returns the (possibly in-place modified) data together with its
`HandlerResult`, or throws.  The `try`/`catch` of the C++ function is the
`Except` match: on error nothing is forwarded and the session is
disconnected. -/
def process_proxy_command
    (fn : LinkedSession → Nat → Nat → List Nat →
      Except String (HandlerResult × List Nat))
    (session : LinkedSession) (from_server : Bool)
    (command flag : Nat) (data : List Nat) : ProxyOutcome :=
  match fn session command flag data with
  | Except.ok (res, data2) =>
    match res.type with
    | HRType.FORWARD =>
      { forwarded := some (!from_server, command, flag, data2),
        disconnected := false }
    | HRType.MODIFIED =>
      { forwarded := some (!from_server,
          (if res.new_command ≥ 0 then res.new_command.toNat else command),
          (if res.new_flag ≥ 0 then res.new_flag.toNat else flag), data2),
        disconnected := false }
    | HRType.SUPPRESS =>
      { forwarded := none, disconnected := false }
  | Except.error _ => { forwarded := none, disconnected := true }

/-! ### Theorems for C1 -/

/-- C1: on a linked session (one holding a license), the server→client 06
handler rewrites a guild-card field equal to the remote guild-card number to
the license serial; the client→server 40 handler rewrites searcher and
target fields equal to the license serial to the remote number; and the two
rewrites are mutually inverse on the identity values (outbound then inbound
restores the serial, inbound then outbound restores the remote number). -/
theorem C1_identity_rewriting_bijective (s : LinkedSession) (lic : License)
    (h : s.license = some lic) :
    (∀ cmd : SC_TextHeader_01_06_11_B0_EE,
      cmd.guild_card_number = s.remote_guild_card_number →
      (process_server_dc_pc_v3_06 s cmd).2.guild_card_number =
        lic.serial_number ∧
      (process_server_dc_pc_v3_06 s cmd).1 = HRType.MODIFIED) ∧
    (∀ cmd : C_GuildCardSearch_40,
      (cmd.searcher_guild_card_number = lic.serial_number →
        (process_client_40 s cmd).2.searcher_guild_card_number =
          s.remote_guild_card_number) ∧
      (cmd.target_guild_card_number = lic.serial_number →
        (process_client_40 s cmd).2.target_guild_card_number =
          s.remote_guild_card_number)) ∧
    (∀ u,
      (process_server_dc_pc_v3_06 s
        { unused := u,
          guild_card_number :=
            (process_client_40 s
              { player_tag := 0,
                searcher_guild_card_number := lic.serial_number,
                target_guild_card_number :=
                  lic.serial_number }).2.searcher_guild_card_number
          }).2.guild_card_number = lic.serial_number) ∧
    (∀ u,
      (process_client_40 s
        { player_tag := 0,
          searcher_guild_card_number :=
            (process_server_dc_pc_v3_06 s
              { unused := u,
                guild_card_number :=
                  s.remote_guild_card_number }).2.guild_card_number,
          target_guild_card_number := 0 }).2.searcher_guild_card_number =
        s.remote_guild_card_number) := by
  refine ⟨?_, ?_, ?_, ?_⟩
  · intro cmd hc
    simp [process_server_dc_pc_v3_06, h, hc]
  · intro cmd
    constructor
    · intro hc
      by_cases ht : cmd.target_guild_card_number = lic.serial_number <;>
        simp [process_client_40, h, hc, ht]
    · intro hc
      by_cases hs : cmd.searcher_guild_card_number = lic.serial_number <;>
        simp [process_client_40, h, hs, hc]
  · intro u
    simp [process_client_40, process_server_dc_pc_v3_06, h]
  · intro u
    by_cases hq : s.remote_guild_card_number = lic.serial_number <;>
      by_cases hz : (0 : Nat) = lic.serial_number <;>
        simp [process_client_40, process_server_dc_pc_v3_06, h, hq, hz]

/-- A concrete linked session used to instantiate hypothesis-bearing
theorems: GC client with license serial 2000, remote guild-card number
55555. -/
def sampleSession : LinkedSession :=
  { version := GameVersion.GC, license := some ⟨2000⟩,
    remote_guild_card_number := 55555, lobby_players := [],
    lobby_client_id := 0, leader_client_id := 0,
    newserv_client_config := ⟨⟨false, false, false⟩, 0⟩,
    client_channel := ⟨true, false, ⟨AF_INET, 0, 0⟩, none, none⟩,
    server_channel := ⟨true, false, ⟨AF_INET, 0, 0⟩, none, none⟩,
    next_destination := ⟨AF_INET, 0, 0⟩, local_port := 5100,
    prev_server_command_bytes := [0, 0, 0, 0, 0, 0],
    detector_crypt := none, login_command_bb := [],
    enable_remote_ip_crc_patch := false, remote_ip_crc := 0,
    override_lobby_event := -1, override_lobby_number := -1,
    connect_requested := false }

/-- Witness for C1 at the concrete session: the remote number 55555 in an 06
command is rewritten to the license serial 2000. -/
theorem C1_identity_rewriting_bijective_witness :
    (process_server_dc_pc_v3_06 sampleSession ⟨0, 55555⟩).2.guild_card_number
      = 2000 :=
  ((C1_identity_rewriting_bijective sampleSession ⟨2000⟩ rfl).1
    ⟨0, 55555⟩ rfl).1

/-! ### Theorems for C9 -/

/-- C9: if the selected handler throws, `process_proxy_command` forwards the
frame to neither channel and disconnects the session; there is no other
recovery. -/
theorem C9_handler_exception_disconnects
    (fn : LinkedSession → Nat → Nat → List Nat →
      Except String (HandlerResult × List Nat))
    (session : LinkedSession) (from_server : Bool)
    (command flag : Nat) (data : List Nat) (e : String)
    (h : fn session command flag data = Except.error e) :
    process_proxy_command fn session from_server command flag data =
      { forwarded := none, disconnected := true } := by
  simp [process_proxy_command, h]

/-- Witness for C9: a handler that always throws, on a concrete session. -/
theorem C9_handler_exception_disconnects_witness :
    process_proxy_command (fun _ _ _ _ => Except.error "failed")
      { version := GameVersion.DC, license := none,
        remote_guild_card_number := 0, lobby_players := [],
        lobby_client_id := 0, leader_client_id := 0,
        newserv_client_config := ⟨⟨false, false, false⟩, 0⟩,
        client_channel := ⟨true, false, ⟨AF_INET, 0, 0⟩, none, none⟩,
        server_channel := ⟨true, false, ⟨AF_INET, 0, 0⟩, none, none⟩,
        next_destination := ⟨AF_INET, 0, 0⟩, local_port := 5100,
        prev_server_command_bytes := [0, 0, 0, 0, 0, 0],
        detector_crypt := none, login_command_bb := [],
        enable_remote_ip_crc_patch := false, remote_ip_crc := 0,
        override_lobby_event := -1, override_lobby_number := -1,
        connect_requested := false } true 0x19 0 [] =
      { forwarded := none, disconnected := true } :=
  C9_handler_exception_disconnects _ _ true 0x19 0 [] "failed" rfl

/-! ### Claim C2: send_command framing -/

/-- `std::string::resize(n)` on a byte string: truncate or zero-extend to
length `n` (the C++ value type fills with `'\0'`). -/
def resizeZero (l : List Nat) (n : Nat) : List Nat :=
  l.take n ++ List.replicate (n - l.length) 0

/-- `(n + 3) & ~3`: round up to a multiple of 4. -/
def alignUp4 (n : Nat) : Nat := (n + 3) / 4 * 4

/-- `(n + 7) & ~7`: round up to a multiple of 8. -/
def alignUp8 (n : Nat) : Nat := (n + 7) / 8 * 8

/-- `send_command` (SendCommands.cc): build the framed byte string enqueued
for one command, before encryption.  `command` and `flag` are the
`uint16_t`/`uint32_t` parameters, `payload` the `data`/`size` buffer.  The
headers are serialized byte for byte (all size/command fields little-endian,
field assignments truncating to the field width).  Returns `none` for the
versions the C++ rejects with `logic_error` (XB). -/
def send_command (version : GameVersion) (command flag : Nat)
    (payload : List Nat) : Option (List Nat) :=
  match version with
  | GameVersion.GC | GameVersion.DC =>
    -- PSOCommandHeaderDCGC: command u8, flag u8, size u16le
    let d := [command % 256, flag % 256, (4 + payload.length) % 256,
      (4 + payload.length) / 256 % 256] ++ payload
    some (if payload.length = 0 then d else resizeZero d (alignUp4 d.length))
  | GameVersion.PC | GameVersion.PATCH =>
    -- PSOCommandHeaderPC: size u16le, command u8, flag u8
    let d := [(4 + payload.length) % 256, (4 + payload.length) / 256 % 256,
      command % 256, flag % 256] ++ payload
    some (if payload.length = 0 then d else resizeZero d (alignUp4 d.length))
  | GameVersion.BB =>
    -- PSOCommandHeaderBB: size u16le, command u16le, flag u32le
    let d := [(8 + payload.length) % 256, (8 + payload.length) / 256 % 256,
      command % 256, command / 256 % 256, flag % 256, flag / 256 % 256,
      flag / 65536 % 256, flag / 16777216 % 256] ++ payload
    some (if payload.length = 0 then d else resizeZero d (alignUp8 d.length))
  | GameVersion.XB => none

/-- Read the little-endian 16-bit value at byte offset `i` of a frame. -/
def le16At (frame : List Nat) (i : Nat) : Nat :=
  frame.getD i 0 + 256 * frame.getD (i + 1) 0

/-- Byte offset of the size field within the header. -/
def sizeFieldOffset : GameVersion → Nat
  | GameVersion.DC | GameVersion.GC => 2
  | _ => 0

/-- Header length per version. -/
def headerSize : GameVersion → Nat
  | GameVersion.BB => 8
  | _ => 4

/-- Frame alignment per version. -/
def alignment : GameVersion → Nat
  | GameVersion.BB => 8
  | _ => 4

theorem le16_decode (a : Nat) : a % 256 + 256 * (a / 256 % 256) = a % 65536 := by
  omega

theorem alignUp4_ge (n : Nat) : n ≤ alignUp4 n := by
  unfold alignUp4; omega

theorem alignUp4_mod (n : Nat) : alignUp4 n % 4 = 0 := by
  unfold alignUp4; omega

theorem alignUp8_ge (n : Nat) : n ≤ alignUp8 n := by
  unfold alignUp8; omega

theorem alignUp8_mod (n : Nat) : alignUp8 n % 8 = 0 := by
  unfold alignUp8; omega

theorem resizeZero_eq_append (l : List Nat) (n : Nat) (h : l.length ≤ n) :
    resizeZero l n = l ++ List.replicate (n - l.length) 0 := by
  unfold resizeZero
  rw [List.take_of_length_le h]

theorem le16At_cons2 (a b c d : Nat) (t : List Nat) :
    le16At (a :: b :: c :: d :: t) 2 = c + 256 * d := rfl

theorem le16At_cons0 (a b : Nat) (t : List Nat) :
    le16At (a :: b :: t) 0 = a + 256 * b := rfl

/-- Decomposition of a header+payload buffer padded up to a multiple of 4:
its normal form, length, and all-zero tail. -/
theorem pad4_parts (hdr payload : List Nat) (hh : hdr.length = 4) :
    resizeZero (hdr ++ payload) (alignUp4 (hdr ++ payload).length) =
      hdr ++ (payload ++ List.replicate
        (alignUp4 (4 + payload.length) - (4 + payload.length)) 0) ∧
    (resizeZero (hdr ++ payload)
        (alignUp4 (hdr ++ payload).length)).length =
      alignUp4 (4 + payload.length) ∧
    (resizeZero (hdr ++ payload) (alignUp4 (hdr ++ payload).length)).drop
        (4 + payload.length) =
      List.replicate (alignUp4 (4 + payload.length) - (4 + payload.length)) 0
    := by
  have hlen : (hdr ++ payload).length = 4 + payload.length := by
    simp [hh]
  have heq : resizeZero (hdr ++ payload) (alignUp4 (hdr ++ payload).length) =
      (hdr ++ payload) ++ List.replicate
        (alignUp4 (4 + payload.length) - (4 + payload.length)) 0 := by
    rw [resizeZero_eq_append _ _ ((hlen ▸ alignUp4_ge _ : (hdr ++ payload).length ≤ _)), hlen]
  refine ⟨by rw [heq, List.append_assoc], ?_, ?_⟩
  · rw [heq, List.length_append, hlen, List.length_replicate]
    have := alignUp4_ge (4 + payload.length)
    omega
  · rw [heq, ← hlen, List.drop_left]

/-- Decomposition of a header+payload buffer padded up to a multiple of 8. -/
theorem pad8_parts (hdr payload : List Nat) (hh : hdr.length = 8) :
    resizeZero (hdr ++ payload) (alignUp8 (hdr ++ payload).length) =
      hdr ++ (payload ++ List.replicate
        (alignUp8 (8 + payload.length) - (8 + payload.length)) 0) ∧
    (resizeZero (hdr ++ payload)
        (alignUp8 (hdr ++ payload).length)).length =
      alignUp8 (8 + payload.length) ∧
    (resizeZero (hdr ++ payload) (alignUp8 (hdr ++ payload).length)).drop
        (8 + payload.length) =
      List.replicate (alignUp8 (8 + payload.length) - (8 + payload.length)) 0
    := by
  have hlen : (hdr ++ payload).length = 8 + payload.length := by
    simp [hh]
  have heq : resizeZero (hdr ++ payload) (alignUp8 (hdr ++ payload).length) =
      (hdr ++ payload) ++ List.replicate
        (alignUp8 (8 + payload.length) - (8 + payload.length)) 0 := by
    rw [resizeZero_eq_append _ _ ((hlen ▸ alignUp8_ge _ : (hdr ++ payload).length ≤ _)), hlen]
  refine ⟨by rw [heq, List.append_assoc], ?_, ?_⟩
  · rw [heq, List.length_append, hlen, List.length_replicate]
    have := alignUp8_ge (8 + payload.length)
    omega
  · rw [heq, ← hlen, List.drop_left]

/-- C2 (amended): for the five versions send_command handles, the size field
equals `(header length + unpadded payload length) mod 2^16`; the total frame
length is a multiple of the version's alignment (4 for DC/GC/PC/Patch, 8 for
BB), namely the header+payload length rounded up to that alignment when the
payload is nonempty and exactly the header length otherwise; and every byte
past header+payload is zero padding — so the size field is determined before
padding and never counts the padding bytes. -/
theorem C2_size_field_and_padding (v : GameVersion) (hv : v ≠ GameVersion.XB)
    (command flag : Nat) (payload frame : List Nat)
    (h : send_command v command flag payload = some frame) :
    le16At frame (sizeFieldOffset v) =
      (headerSize v + payload.length) % 65536 ∧
    frame.length % alignment v = 0 ∧
    frame.length =
      (if payload.length = 0 then headerSize v
        else if v = GameVersion.BB then
          alignUp8 (headerSize v + payload.length)
        else alignUp4 (headerSize v + payload.length)) ∧
    frame.drop (headerSize v + payload.length) =
      List.replicate (frame.length - (headerSize v + payload.length)) 0 := by
  cases v with
  | XB => exact absurd rfl hv
  | DC =>
    by_cases hp : payload.length = 0
    · have hpl : payload = [] := List.length_eq_zero.mp hp
      subst hpl
      simp [send_command] at h
      subst h
      refine ⟨?_, ?_, ?_, ?_⟩ <;>
        simp [le16At, sizeFieldOffset, headerSize, alignment]
    · simp only [send_command, Option.some.injEq] at h
      rw [if_neg hp] at h
      subst h
      have hparts := pad4_parts [command % 256, flag % 256,
        (4 + payload.length) % 256, (4 + payload.length) / 256 % 256]
        payload rfl
      refine ⟨?_, ?_, ?_, ?_⟩
      · rw [hparts.1]
        simp only [List.cons_append, List.nil_append]
        rw [show sizeFieldOffset GameVersion.DC = 2 from rfl,
          show headerSize GameVersion.DC = 4 from rfl, le16At_cons2]
        exact le16_decode _
      · rw [hparts.2.1, show alignment GameVersion.DC = 4 from rfl]
        exact alignUp4_mod _
      · rw [hparts.2.1, if_neg hp,
          if_neg (by decide : ¬GameVersion.DC = GameVersion.BB),
          show headerSize GameVersion.DC = 4 from rfl]
      · rw [show headerSize GameVersion.DC = 4 from rfl, hparts.2.1,
          hparts.2.2]
  | GC =>
    by_cases hp : payload.length = 0
    · have hpl : payload = [] := List.length_eq_zero.mp hp
      subst hpl
      simp [send_command] at h
      subst h
      refine ⟨?_, ?_, ?_, ?_⟩ <;>
        simp [le16At, sizeFieldOffset, headerSize, alignment]
    · simp only [send_command, Option.some.injEq] at h
      rw [if_neg hp] at h
      subst h
      have hparts := pad4_parts [command % 256, flag % 256,
        (4 + payload.length) % 256, (4 + payload.length) / 256 % 256]
        payload rfl
      refine ⟨?_, ?_, ?_, ?_⟩
      · rw [hparts.1]
        simp only [List.cons_append, List.nil_append]
        rw [show sizeFieldOffset GameVersion.GC = 2 from rfl,
          show headerSize GameVersion.GC = 4 from rfl, le16At_cons2]
        exact le16_decode _
      · rw [hparts.2.1, show alignment GameVersion.GC = 4 from rfl]
        exact alignUp4_mod _
      · rw [hparts.2.1, if_neg hp,
          if_neg (by decide : ¬GameVersion.GC = GameVersion.BB),
          show headerSize GameVersion.GC = 4 from rfl]
      · rw [show headerSize GameVersion.GC = 4 from rfl, hparts.2.1,
          hparts.2.2]
  | PC =>
    by_cases hp : payload.length = 0
    · have hpl : payload = [] := List.length_eq_zero.mp hp
      subst hpl
      simp [send_command] at h
      subst h
      refine ⟨?_, ?_, ?_, ?_⟩ <;>
        simp [le16At, sizeFieldOffset, headerSize, alignment]
    · simp only [send_command, Option.some.injEq] at h
      rw [if_neg hp] at h
      subst h
      have hparts := pad4_parts [(4 + payload.length) % 256,
        (4 + payload.length) / 256 % 256, command % 256, flag % 256]
        payload rfl
      refine ⟨?_, ?_, ?_, ?_⟩
      · rw [hparts.1]
        simp only [List.cons_append, List.nil_append]
        rw [show sizeFieldOffset GameVersion.PC = 0 from rfl,
          show headerSize GameVersion.PC = 4 from rfl, le16At_cons0]
        exact le16_decode _
      · rw [hparts.2.1, show alignment GameVersion.PC = 4 from rfl]
        exact alignUp4_mod _
      · rw [hparts.2.1, if_neg hp,
          if_neg (by decide : ¬GameVersion.PC = GameVersion.BB),
          show headerSize GameVersion.PC = 4 from rfl]
      · rw [show headerSize GameVersion.PC = 4 from rfl, hparts.2.1,
          hparts.2.2]
  | PATCH =>
    by_cases hp : payload.length = 0
    · have hpl : payload = [] := List.length_eq_zero.mp hp
      subst hpl
      simp [send_command] at h
      subst h
      refine ⟨?_, ?_, ?_, ?_⟩ <;>
        simp [le16At, sizeFieldOffset, headerSize, alignment]
    · simp only [send_command, Option.some.injEq] at h
      rw [if_neg hp] at h
      subst h
      have hparts := pad4_parts [(4 + payload.length) % 256,
        (4 + payload.length) / 256 % 256, command % 256, flag % 256]
        payload rfl
      refine ⟨?_, ?_, ?_, ?_⟩
      · rw [hparts.1]
        simp only [List.cons_append, List.nil_append]
        rw [show sizeFieldOffset GameVersion.PATCH = 0 from rfl,
          show headerSize GameVersion.PATCH = 4 from rfl, le16At_cons0]
        exact le16_decode _
      · rw [hparts.2.1, show alignment GameVersion.PATCH = 4 from rfl]
        exact alignUp4_mod _
      · rw [hparts.2.1, if_neg hp,
          if_neg (by decide : ¬GameVersion.PATCH = GameVersion.BB),
          show headerSize GameVersion.PATCH = 4 from rfl]
      · rw [show headerSize GameVersion.PATCH = 4 from rfl, hparts.2.1,
          hparts.2.2]
  | BB =>
    by_cases hp : payload.length = 0
    · have hpl : payload = [] := List.length_eq_zero.mp hp
      subst hpl
      simp [send_command] at h
      subst h
      refine ⟨?_, ?_, ?_, ?_⟩ <;>
        simp [le16At, sizeFieldOffset, headerSize, alignment]
    · simp only [send_command, Option.some.injEq] at h
      rw [if_neg hp] at h
      subst h
      have hparts := pad8_parts [(8 + payload.length) % 256,
        (8 + payload.length) / 256 % 256, command % 256, command / 256 % 256,
        flag % 256, flag / 256 % 256, flag / 65536 % 256,
        flag / 16777216 % 256] payload rfl
      refine ⟨?_, ?_, ?_, ?_⟩
      · rw [hparts.1]
        simp only [List.cons_append, List.nil_append]
        rw [show sizeFieldOffset GameVersion.BB = 0 from rfl,
          show headerSize GameVersion.BB = 8 from rfl, le16At_cons0]
        exact le16_decode _
      · rw [hparts.2.1, show alignment GameVersion.BB = 8 from rfl]
        exact alignUp8_mod _
      · rw [hparts.2.1, if_neg hp, if_pos rfl,
          show headerSize GameVersion.BB = 8 from rfl]
      · rw [show headerSize GameVersion.BB = 8 from rfl, hparts.2.1,
          hparts.2.2]

/-- Witness for C2 at a concrete frame: a DC command 60 with a 1-byte
payload frames to 8 bytes with size field 5. -/
theorem C2_size_field_and_padding_witness :
    le16At ((send_command GameVersion.DC 0x60 0 [7]).getD [])
        (sizeFieldOffset GameVersion.DC) = (4 + 1) % 65536 :=
  (C2_size_field_and_padding GameVersion.DC (by decide) 0x60 0 [7]
    ((send_command GameVersion.DC 0x60 0 [7]).getD []) rfl).1

/-- The 65532-byte payload used to exhibit size-field wraparound. -/
def c2Payload : List Nat := List.replicate 65532 0

/-- The frame send_command builds for `c2Payload` on DC (the nonempty-payload
branch of the DC/GC case, spelled out). -/
def c2Frame : List Nat :=
  resizeZero ([0x60 % 256, 0 % 256, (4 + c2Payload.length) % 256,
    (4 + c2Payload.length) / 256 % 256] ++ c2Payload)
    (alignUp4 ([0x60 % 256, 0 % 256, (4 + c2Payload.length) % 256,
      (4 + c2Payload.length) / 256 % 256] ++ c2Payload).length)

theorem c2pl : c2Payload.length = 65532 := by
  show (List.replicate 65532 (0 : Nat)).length = 65532
  rw [List.length_replicate]

theorem c2Frame_eq :
    send_command GameVersion.DC 0x60 0 c2Payload = some c2Frame := by
  simp only [send_command]
  rw [if_neg (by rw [c2pl]; norm_num)]
  rfl

/-- C2 counterexample: for the concrete 65532-byte payload on DC, the size
field is `(4 + 65532) % 65536 = 0`, not `4 + 65532` — the claim's
unqualified "size field equals header length plus unpadded payload length"
fails (the field is 16 bits wide). -/
theorem C2_counterexample :
    le16At c2Frame (sizeFieldOffset GameVersion.DC) ≠
      headerSize GameVersion.DC + c2Payload.length := by
  have h := C2_size_field_and_padding GameVersion.DC (by decide) 0x60 0
    c2Payload c2Frame c2Frame_eq
  rw [h.1]
  rw [c2pl]
  norm_num [headerSize]

/-! ### Byte-buffer helpers and hash primitives -/

/-- Write a `le_uint16_t` value at byte offset `i` of a buffer. -/
def writeLE16At (l : List Nat) (i v : Nat) : List Nat :=
  l.take i ++ [v % 256, v / 256 % 256] ++ l.drop (i + 2)

/-- Write a `le_uint32_t` value at byte offset `i` of a buffer. -/
def writeLE32At (l : List Nat) (i v : Nat) : List Nat :=
  l.take i ++ [v % 256, v / 256 % 256, v / 65536 % 256, v / 16777216 % 256] ++
    l.drop (i + 4)

/-- Read the little-endian 32-bit value at byte offset `i`. -/
def readLE32At (l : List Nat) (i : Nat) : Nat :=
  l.getD i 0 + 256 * l.getD (i + 1) 0 + 65536 * l.getD (i + 2) 0 +
    16777216 * l.getD (i + 3) 0

/-- One bit step of the reflected CRC-32 (polynomial 0xEDB88320). -/
def crc32Bit (c : Nat) : Nat :=
  if c % 2 = 1 then (c / 2) ^^^ 0xEDB88320 else c / 2

/-- `crc32` from the phosg support library (outside this repository): the
standard reflected CRC-32 with initial value and final xor `0xFFFFFFFF`. -/
def crc32 (data : List Nat) : Nat :=
  (data.foldl (fun c b => crc32Bit^[8] (c ^^^ (b % 256))) 0xFFFFFFFF) ^^^
    0xFFFFFFFF

/-- `fnv1a64` from the phosg support library (outside this repository): the
standard 64-bit FNV-1a content hash. -/
def fnv1a64 (data : List Nat) : Nat :=
  data.foldl (fun h b => ((h ^^^ (b % 256)) * 0x00000100000001B3) % 2 ^ 64)
    0xCBF29CE484222325

/-! ### Claims C4/C6: reconnect interception (19 game / 14 patch) -/

/-- Modelled from the spec: `S_Reconnect_19` (its layout lives in
CommandFormats.hh, outside the excerpt).  §4.G: "`19` carries
`{ipv4, port}`"; little-endian 4-byte address, 2-byte port, 2 unused bytes,
8 bytes total. -/
structure S_Reconnect_19 where
  address : Nat
  port : Nat
deriving DecidableEq, Repr

/-- `sizeof(S_Reconnect_19)`. -/
def sizeof_S_Reconnect_19 : Nat := 8

/-- Parse an `S_Reconnect_19` from a (filled) byte buffer.
`address` is read raw (`load_raw`), `port` as a little-endian 16-bit. -/
def parse_reconnect_19 (data : List Nat) : S_Reconnect_19 :=
  { address := readLE32At data 0, port := le16At data 4 }

/-- The under-size fill of `process_server_game_19_patch_14`: if the payload
is shorter than the remembered previous-server-command buffer, append that
buffer's bytes from the corresponding offset; then zero-resize up to
`sizeof(S_Reconnect_19)` if still shorter. -/
def fill_reconnect_data (session : LinkedSession) (data : List Nat) :
    List Nat :=
  let data1 :=
    if data.length < session.prev_server_command_bytes.length then
      data ++ session.prev_server_command_bytes.drop data.length
    else data
  if data1.length < sizeof_S_Reconnect_19 then
    data1 ++ List.replicate (sizeof_S_Reconnect_19 - data1.length) 0
  else data1

/-- `process_server_game_19_patch_14`: fill the short payload, record the
CRC when the remote-IP-CRC patch is armed, record the true destination,
then: suppress if no client endpoint; on patch 14 reset the server ciphers,
follow the redirect and suppress; on a virtual client rewrite only the port;
on a real socket rewrite address and port to the client channel's
locally-bound IPv4 endpoint. -/
def process_server_game_19_patch_14 (session : LinkedSession)
    (command : Nat) (data : List Nat) :
    Except String (HRType × LinkedSession × List Nat) :=
  let data2 := fill_reconnect_data session data
  let session1 :=
    if session.enable_remote_ip_crc_patch then
      { session with remote_ip_crc := crc32 (data2.take 4) }
    else session
  if 0xB0 < data2.length then
    -- check_size_t<S_Reconnect_19>(data, sizeof(S_Reconnect_19), 0xB0)
    Except.error "check_size_t"
  else
    let cmd := parse_reconnect_19 data2
    let session2 := { session1 with next_destination :=
      { family := AF_INET, addr := cmd.address, port := htons cmd.port } }
    if session2.client_channel.connected = false then
      Except.ok (HRType.SUPPRESS, session2, data2)
    else if command = 0x14 then
      Except.ok (HRType.SUPPRESS,
        { session2 with
          server_channel := { session2.server_channel with
            crypt_in := none, crypt_out := none },
          next_destination :=
            { family := AF_INET, addr := cmd.address, port := cmd.port },
          connect_requested := true }, data2)
    else if session2.client_channel.is_virtual_connection then
      Except.ok (HRType.MODIFIED, session2,
        writeLE16At data2 4 session2.local_port)
    else if session2.client_channel.local_addr.family ≠ AF_INET then
      Except.error "existing connection is not ipv4"
    else
      Except.ok (HRType.MODIFIED, session2,
        writeLE16At (writeLE32At data2 0
            session2.client_channel.local_addr.addr) 4
          (ntohs session2.client_channel.local_addr.port))

/-! ### Claims C3/C7: BB server-init splicing and the remote-IP CRC patch -/

/-- `process_server_bb_22`: a 0x2C-byte frame whose fnv1a64 hash matches the
known fingerprint arms the remote-IP-CRC patch; the frame is always
forwarded. -/
def process_server_bb_22 (session : LinkedSession) (data : List Nat) :
    HRType × LinkedSession :=
  if data.length = 0x2C ∧ fnv1a64 data = 0x8AF8314316A27994 then
    (HRType.FORWARD, { session with enable_remote_ip_crc_patch := true })
  else
    (HRType.FORWARD, session)

/-- `S_ServerInit_BB_03_9B` at field level: the two 0x30-byte key blocks the
handler reads. -/
structure S_ServerInit_BB_03_9B where
  server_key : List Nat
  client_key : List Nat
deriving DecidableEq, Repr

/-- `"\xB4\x00\x93\x00\x00\x00\x00\x00"`: the expected first plaintext of a
BB client's first encrypted frame. -/
def expected_first_data : List Nat := [0xB4, 0, 0x93, 0, 0, 0, 0, 0]

/-- `process_server_bb_03`, returning the updated session and the sends it
performs (each `Send` in order). -/
def process_server_bb_03 (bb_private_keys : Nat) (session : LinkedSession)
    (cmd : S_ServerInit_BB_03_9B) (data : List Nat) :
    Except String (HRType × LinkedSession × List Send) :=
  match session.detector_crypt with
  | some det =>
    if session.login_command_bb.length = 0 then
      Except.error "linked BB session does not have a saved login command"
    else
      -- only the server channel's crypts are recreated
      let login :=
        if session.enable_remote_ip_crc_patch ∧
            0x98 ≤ session.login_command_bb.length then
          writeLE32At session.login_command_bb 0x94
            (session.remote_ip_crc ^^^ (1309539928 + 1248334810))
        else session.login_command_bb
      Except.ok (HRType.SUPPRESS,
        { session with
          server_channel := { session.server_channel with
            crypt_in := some (Crypt.bbImitator det cmd.server_key false),
            crypt_out := some (Crypt.bbImitator det cmd.client_key false) },
          login_command_bb := login },
        [{ to_server := true, command := 0x93, flag := 0,
           body := Body.raw login }])
  | none =>
    -- forward the 03 to the client first, so it goes out before any crypt
    -- is installed on the client channel
    let det : DetectorSpec :=
      { possible_keys := bb_private_keys,
        expected_first_data := expected_first_data,
        key := cmd.client_key }
    Except.ok (HRType.SUPPRESS,
      { session with
        detector_crypt := some det,
        client_channel := { session.client_channel with
          crypt_in := some (Crypt.bbDetector det),
          crypt_out := some (Crypt.bbImitator det cmd.server_key true) },
        server_channel := { session.server_channel with
          crypt_in := some (Crypt.bbImitator det cmd.server_key false),
          crypt_out := some (Crypt.bbImitator det cmd.client_key false) } },
      [{ to_server := false, command := 0x03, flag := 0,
         body := Body.raw data }])

/-! ### Theorems for C4 and C6 -/

theorem fill_reconnect_data_length (s : LinkedSession) (data : List Nat) :
    8 ≤ (fill_reconnect_data s data).length := by
  simp only [fill_reconnect_data, sizeof_S_Reconnect_19]
  set d1 := if data.length < s.prev_server_command_bytes.length then
      data ++ s.prev_server_command_bytes.drop data.length else data with hd1
  by_cases h2 : d1.length < 8
  · rw [if_pos h2]
    simp
    omega
  · rw [if_neg h2]
    omega

theorem writeLE16At_take4 (l : List Nat) (v : Nat) (h : 4 ≤ l.length) :
    (writeLE16At l 4 v).take 4 = l.take 4 := by
  unfold writeLE16At
  rw [List.take_append_of_le_length (by simp [List.length_take]; omega),
    List.take_append_of_le_length (by rw [List.length_take]; omega),
    List.take_of_length_le (by rw [List.length_take]; omega)]

theorem writeLE16At_drop6 (l : List Nat) (v : Nat) (h : 4 ≤ l.length) :
    (writeLE16At l 4 v).drop 6 = l.drop 6 := by
  unfold writeLE16At
  rw [List.drop_left' (by simp [List.length_take]; omega)]

theorem writeLE16At_port_bytes (l : List Nat) (v : Nat) (h : 4 ≤ l.length) :
    ((writeLE16At l 4 v).drop 4).take 2 = [v % 256, v / 256 % 256] := by
  unfold writeLE16At
  rw [List.append_assoc, List.drop_left' (by rw [List.length_take]; omega),
    show (2 : Nat) = ([v % 256, v / 256 % 256] : List Nat).length from rfl,
    List.take_left]

theorem writeLE32At_zero_take4 (l : List Nat) (v : Nat) :
    (writeLE32At l 0 v).take 4 =
      [v % 256, v / 256 % 256, v / 65536 % 256, v / 16777216 % 256] := by
  unfold writeLE32At
  simp only [List.take_zero, List.nil_append]
  rw [show (4 : Nat) = ([v % 256, v / 256 % 256, v / 65536 % 256,
      v / 16777216 % 256] : List Nat).length from rfl, List.take_left]

theorem writeLE32At_zero_length (l : List Nat) (v : Nat) :
    4 ≤ (writeLE32At l 0 v).length := by
  unfold writeLE32At
  simp

/-- The session state after the common part of the 19 handler: CRC recorded
if the patch is armed, and `next_destination` set from the filled payload. -/
def reconnect_session_after (session : LinkedSession) (data : List Nat) :
    LinkedSession :=
  let data2 := fill_reconnect_data session data
  let session1 :=
    if session.enable_remote_ip_crc_patch then
      { session with remote_ip_crc := crc32 (data2.take 4) }
    else session
  { session1 with next_destination :=
    { family := AF_INET, addr := (parse_reconnect_19 data2).address,
      port := htons (parse_reconnect_19 data2).port } }

/-- C4: for a connected client and an in-range payload, the reconnect
handler records the parsed destination (address raw, port byte-swapped via
htons) in `next_destination`; on a 19 with a virtual client connection only
the payload's port field is rewritten, to the session's local port (first
four bytes and bytes past the port untouched); on a 19 with a real IPv4
socket both address and port are rewritten to the client channel's
locally-bound address and port; on a patch 14 the server channel's two
ciphers are reset, the proxy follows the redirect itself
(`connect_requested`), and the frame is suppressed. -/
theorem C4_reconnect_interception (s : LinkedSession) (data : List Nat)
    (hsize : (fill_reconnect_data s data).length ≤ 0xB0)
    (hconn : s.client_channel.connected = true) :
    ((reconnect_session_after s data).next_destination =
      { family := AF_INET,
        addr := (parse_reconnect_19 (fill_reconnect_data s data)).address,
        port := htons (parse_reconnect_19 (fill_reconnect_data s data)).port }) ∧
    (s.client_channel.is_virtual_connection = true →
      process_server_game_19_patch_14 s 0x19 data =
        Except.ok (HRType.MODIFIED, reconnect_session_after s data,
          writeLE16At (fill_reconnect_data s data) 4 s.local_port) ∧
      (writeLE16At (fill_reconnect_data s data) 4 s.local_port).take 4 =
        (fill_reconnect_data s data).take 4 ∧
      (writeLE16At (fill_reconnect_data s data) 4 s.local_port).drop 6 =
        (fill_reconnect_data s data).drop 6 ∧
      ((writeLE16At (fill_reconnect_data s data) 4 s.local_port).drop 4).take 2
        = [s.local_port % 256, s.local_port / 256 % 256]) ∧
    (s.client_channel.is_virtual_connection = false →
      s.client_channel.local_addr.family = AF_INET →
      process_server_game_19_patch_14 s 0x19 data =
        Except.ok (HRType.MODIFIED, reconnect_session_after s data,
          writeLE16At (writeLE32At (fill_reconnect_data s data) 0
              s.client_channel.local_addr.addr) 4
            (ntohs s.client_channel.local_addr.port)) ∧
      (writeLE16At (writeLE32At (fill_reconnect_data s data) 0
          s.client_channel.local_addr.addr) 4
          (ntohs s.client_channel.local_addr.port)).take 4 =
        [s.client_channel.local_addr.addr % 256,
          s.client_channel.local_addr.addr / 256 % 256,
          s.client_channel.local_addr.addr / 65536 % 256,
          s.client_channel.local_addr.addr / 16777216 % 256] ∧
      ((writeLE16At (writeLE32At (fill_reconnect_data s data) 0
          s.client_channel.local_addr.addr) 4
          (ntohs s.client_channel.local_addr.port)).drop 4).take 2 =
        [ntohs s.client_channel.local_addr.port % 256,
          ntohs s.client_channel.local_addr.port / 256 % 256]) ∧
    process_server_game_19_patch_14 s 0x14 data =
      Except.ok (HRType.SUPPRESS,
        { reconnect_session_after s data with
          server_channel := { s.server_channel with
            crypt_in := none, crypt_out := none },
          next_destination :=
            { family := AF_INET,
              addr := (parse_reconnect_19 (fill_reconnect_data s data)).address,
              port := (parse_reconnect_19 (fill_reconnect_data s data)).port },
          connect_requested := true },
        fill_reconnect_data s data) := by
  have hfl := fill_reconnect_data_length s data
  have hB0 : ¬ 0xB0 < (fill_reconnect_data s data).length := by omega
  refine ⟨?_, ?_, ?_, ?_⟩
  · by_cases he : s.enable_remote_ip_crc_patch <;>
      simp [reconnect_session_after, he]
  · intro hv
    refine ⟨?_, writeLE16At_take4 _ _ (by omega),
      writeLE16At_drop6 _ _ (by omega), writeLE16At_port_bytes _ _ (by omega)⟩
    by_cases he : s.enable_remote_ip_crc_patch <;>
      simp [process_server_game_19_patch_14, reconnect_session_after, he,
        hB0, hconn, hv]
  · intro hv hf
    refine ⟨?_, ?_, ?_⟩
    · by_cases he : s.enable_remote_ip_crc_patch <;>
        simp [process_server_game_19_patch_14, reconnect_session_after, he,
          hB0, hconn, hv, hf]
    · rw [writeLE16At_take4 _ _ (writeLE32At_zero_length _ _),
        writeLE32At_zero_take4]
    · exact writeLE16At_port_bytes _ _ (writeLE32At_zero_length _ _)
  · by_cases he : s.enable_remote_ip_crc_patch <;>
      simp [process_server_game_19_patch_14, reconnect_session_after, he,
        hB0, hconn]

/-- Witness for C4: on the concrete session (real, connected, IPv4 client
socket), the recorded next destination is as parsed from the filled
payload. -/
theorem C4_reconnect_interception_witness :
    (reconnect_session_after sampleSession [1, 2, 3, 4]).next_destination =
      { family := AF_INET,
        addr := (parse_reconnect_19
          (fill_reconnect_data sampleSession [1, 2, 3, 4])).address,
        port := htons (parse_reconnect_19
          (fill_reconnect_data sampleSession [1, 2, 3, 4])).port } :=
  (C4_reconnect_interception sampleSession [1, 2, 3, 4] (by decide) rfl).1

/-- C6: a server reconnect payload shorter than the remembered
previous-server-command buffer is completed from that buffer's bytes at the
corresponding offsets and zero-extended to the reconnect structure size; in
particular a 4-byte frame against a 6-byte remembered buffer gains the
buffer's bytes 4..5 followed by two zero bytes, and parses to the address
held in its own four bytes and the port held in the remembered bytes — the
destination the client would compute from its spliced receive buffer. -/
theorem C6_short_reconnect_fill (s : LinkedSession)
    (a b c d p0 p1 p2 p3 p4 p5 : Nat)
    (hprev : s.prev_server_command_bytes = [p0, p1, p2, p3, p4, p5]) :
    fill_reconnect_data s [a, b, c, d] = [a, b, c, d, p4, p5, 0, 0] ∧
    parse_reconnect_19 (fill_reconnect_data s [a, b, c, d]) =
      { address := a + 256 * b + 65536 * c + 16777216 * d,
        port := p4 + 256 * p5 } := by
  have hfill : fill_reconnect_data s [a, b, c, d] =
      [a, b, c, d, p4, p5, 0, 0] := by
    simp [fill_reconnect_data, hprev, sizeof_S_Reconnect_19]
  refine ⟨hfill, ?_⟩
  rw [hfill]
  simp [parse_reconnect_19, readLE32At, le16At]

/-- Witness for C6 at a concrete session and bytes. -/
theorem C6_short_reconnect_fill_witness :
    fill_reconnect_data
        { sampleSession with prev_server_command_bytes := [9, 9, 9, 9, 5, 6] }
        [1, 2, 3, 4] = [1, 2, 3, 4, 5, 6, 0, 0] :=
  (C6_short_reconnect_fill _ 1 2 3 4 9 9 9 9 5 6 rfl).1

/-! ### Theorems for C3 and C7 -/

/-- A BB variant of the sample session (fresh: no detector crypt). -/
def sessionBB : LinkedSession :=
  { sampleSession with version := GameVersion.BB }

/-- The detector the no-detector branch of `process_server_bb_03`
constructs: candidate pool, expected first plaintext, and the frame's
client-key. -/
def bb03_detector (pool : Nat) (cmd : S_ServerInit_BB_03_9B) : DetectorSpec :=
  { possible_keys := pool, expected_first_data := expected_first_data,
    key := cmd.client_key }

/-- C3 (amended): on a BB session with no detector crypt, the 03 handler
first sends the frame to the client (before any cipher is installed on the
client channel), builds a multi-key detector from the candidate key pool,
the expected first plaintext `B4 00 93 00 00 00 00 00` and the frame's
client-key, installs it as the client channel's inbound cipher, installs
imitators referencing it on the other three directions, and suppresses the
frame.  With an existing detector (resumed session), only the server
channel's two ciphers are replaced with imitators and the saved login
command is replayed to the server. -/
theorem C3_bb_server_init_splicing (pool : Nat) (s : LinkedSession)
    (cmd : S_ServerInit_BB_03_9B) (data : List Nat) :
    (s.detector_crypt = none →
      process_server_bb_03 pool s cmd data =
        Except.ok (HRType.SUPPRESS,
          { s with
            detector_crypt := some (bb03_detector pool cmd),
            client_channel := { s.client_channel with
              crypt_in := some (Crypt.bbDetector (bb03_detector pool cmd)),
              crypt_out := some (Crypt.bbImitator (bb03_detector pool cmd)
                cmd.server_key true) },
            server_channel := { s.server_channel with
              crypt_in := some (Crypt.bbImitator (bb03_detector pool cmd)
                cmd.server_key false),
              crypt_out := some (Crypt.bbImitator (bb03_detector pool cmd)
                cmd.client_key false) } },
          [{ to_server := false, command := 0x03, flag := 0,
             body := Body.raw data }])) ∧
    (∀ det : DetectorSpec, s.detector_crypt = some det →
      s.login_command_bb.length ≠ 0 →
      process_server_bb_03 pool s cmd data =
        Except.ok (HRType.SUPPRESS,
          { s with
            server_channel := { s.server_channel with
              crypt_in := some (Crypt.bbImitator det cmd.server_key false),
              crypt_out := some (Crypt.bbImitator det cmd.client_key false) },
            login_command_bb :=
              if s.enable_remote_ip_crc_patch ∧
                  0x98 ≤ s.login_command_bb.length then
                writeLE32At s.login_command_bb 0x94
                  (s.remote_ip_crc ^^^ (1309539928 + 1248334810))
              else s.login_command_bb },
          [{ to_server := true, command := 0x93, flag := 0,
             body := Body.raw
               (if s.enable_remote_ip_crc_patch ∧
                   0x98 ≤ s.login_command_bb.length then
                 writeLE32At s.login_command_bb 0x94
                   (s.remote_ip_crc ^^^ (1309539928 + 1248334810))
               else s.login_command_bb) }])) := by
  constructor
  · intro hdet
    simp [process_server_bb_03, bb03_detector, hdet]
  · intro det hdet hlogin
    simp [process_server_bb_03, hdet, hlogin]

/-- Witness for C3: a fresh BB session installs the detector built from the
frame's client-key as the client channel's inbound cipher. -/
theorem C3_bb_server_init_splicing_witness :
    (process_server_bb_03 7 sessionBB ⟨[1], [2]⟩ []).map
        (fun r => r.2.1.client_channel.crypt_in) =
      Except.ok (some (Crypt.bbDetector (bb03_detector 7 ⟨[1], [2]⟩))) := by
  rw [(C3_bb_server_init_splicing 7 sessionBB ⟨[1], [2]⟩ []).1 rfl]
  rfl

/-- C3 counterexample: at the concrete fresh session and frame with
`server_key = [1]` and `client_key = [2]`, the detector is NOT constructed
with the server-key, contradicting the claim's "the server's server-key from
the frame" (it is constructed with the client-key). -/
theorem C3_counterexample :
    ((process_server_bb_03 7 sessionBB ⟨[1], [2]⟩ []).toOption.map
        (fun r => r.2.1.detector_crypt)) ≠
      some (some ⟨7, expected_first_data, [1]⟩) := by
  decide

/-- Whatever branch the reconnect handler takes, a successful result
carries the CRC recorded from the filled payload iff the patch flag was
set. -/
theorem reconnect_ok_crc (s : LinkedSession) (command : Nat)
    (data : List Nat) :
    (process_server_game_19_patch_14 s command data).map
        (fun r => r.2.1.remote_ip_crc) =
      (process_server_game_19_patch_14 s command data).map
        (fun _ => if s.enable_remote_ip_crc_patch = true then
          crc32 ((fill_reconnect_data s data).take 4)
        else s.remote_ip_crc) := by
  by_cases he : s.enable_remote_ip_crc_patch = true <;>
    by_cases hB : 0xB0 < (fill_reconnect_data s data).length <;>
      by_cases hc : s.client_channel.connected = false <;>
        by_cases h14 : command = 0x14 <;>
          by_cases hv : s.client_channel.is_virtual_connection = true <;>
            by_cases hf : s.client_channel.local_addr.family = AF_INET <;>
              simp [process_server_game_19_patch_14, Except.map, he, hB,
                hc, h14, hv, hf]

/-- C7: (i) a 22 command whose payload is exactly 0x2C bytes and whose
fnv1a64 hash equals 0x8AF8314316A27994 arms the remote-IP-CRC-patch flag
(and only such payloads arm it), with the frame forwarded; (ii) while the
flag is set, a processed reconnect records the CRC-32 of the first four
bytes of the filled payload; (iii) on a 03 with an existing detector and a
saved login command of at least 0x98 bytes, the replayed login command is
the saved one with the 32-bit little-endian field at offset 0x94 set to the
recorded CRC XOR (1309539928 + 1248334810). -/
theorem C7_remote_ip_crc_patch :
    (∀ (s : LinkedSession) (data : List Nat),
      (process_server_bb_22 s data).1 = HRType.FORWARD ∧
      ((process_server_bb_22 s data).2.enable_remote_ip_crc_patch = true ↔
        (s.enable_remote_ip_crc_patch = true ∨
          (data.length = 0x2C ∧
            fnv1a64 data = 0x8AF8314316A27994)))) ∧
    (∀ (s : LinkedSession) (command : Nat) (data : List Nat)
        (out : HRType × LinkedSession × List Nat),
      s.enable_remote_ip_crc_patch = true →
      process_server_game_19_patch_14 s command data = Except.ok out →
      out.2.1.remote_ip_crc =
        crc32 ((fill_reconnect_data s data).take 4)) ∧
    (∀ (pool : Nat) (s : LinkedSession) (det : DetectorSpec)
        (cmd : S_ServerInit_BB_03_9B) (data : List Nat)
        (out : HRType × LinkedSession × List Send),
      s.detector_crypt = some det →
      s.enable_remote_ip_crc_patch = true →
      0x98 ≤ s.login_command_bb.length →
      process_server_bb_03 pool s cmd data = Except.ok out →
      out.2.2 = [⟨true, 0x93, 0,
        Body.raw (writeLE32At s.login_command_bb 0x94
          (s.remote_ip_crc ^^^ (1309539928 + 1248334810)))⟩]) := by
  refine ⟨?_, ?_, ?_⟩
  · intro s data
    constructor
    · by_cases hc : data.length = 0x2C ∧ fnv1a64 data = 0x8AF8314316A27994 <;>
        simp [process_server_bb_22, hc]
    · by_cases hc : data.length = 0x2C ∧ fnv1a64 data = 0x8AF8314316A27994 <;>
        by_cases he : s.enable_remote_ip_crc_patch = true <;>
          simp [process_server_bb_22, hc, he]
  · intro s command data out he hout
    have h := reconnect_ok_crc s command data
    rw [hout] at h
    simp only [Except.map, he, if_pos, Except.ok.injEq] at h
    exact h
  · intro pool s det cmd data out hdet he hlen hout
    have hlogin : s.login_command_bb.length ≠ 0 := by omega
    simp only [process_server_bb_03, hdet] at hout
    rw [if_neg hlogin] at hout
    injection hout with h2
    subst h2
    simp [he, hlen]

/-- A session for the C7 witness: detector present, CRC patch armed, saved
login command of 0x98 zero bytes. -/
def sessionCrc : LinkedSession :=
  { sampleSession with
    detector_crypt := some ⟨0, expected_first_data, [3]⟩,
    enable_remote_ip_crc_patch := true,
    login_command_bb := List.replicate 0x98 0 }

/-- Witness for C7: the concrete resumed session replays the saved login
command with the CRC-XOR constant written at offset 0x94. -/
theorem C7_remote_ip_crc_patch_witness :
    (process_server_bb_03 0 sessionCrc ⟨[1], [2]⟩ []).map
        (fun r => r.2.2) =
      Except.ok [⟨true, 0x93, 0,
        Body.raw (writeLE32At sessionCrc.login_command_bb 0x94
          (sessionCrc.remote_ip_crc ^^^ (1309539928 + 1248334810)))⟩] := by
  cases hrun : process_server_bb_03 0 sessionCrc ⟨[1], [2]⟩ [] with
  | error e =>
    simp [process_server_bb_03, sessionCrc, sampleSession] at hrun
  | ok out =>
    have h3 := C7_remote_ip_crc_patch.2.2 0 sessionCrc
      ⟨0, expected_first_data, [3]⟩ ⟨[1], [2]⟩ [] out rfl rfl
      (by rw [show sessionCrc.login_command_bb = List.replicate 0x98 0
          from rfl, List.length_replicate]) hrun
    simp only [Except.map, h3]

/-! ### Claim C5: return-to-home on client A0/A1 -/

/-- The parts of `ServerState` the A0/A1 handler reads: the server name and
the port lookup (`s->name_to_port_config.at(name)->port`; modelled total —
the standard configuration defines every port name used here). -/
structure ServerState where
  name : String
  name_to_port_config : String → Nat

/-- The `version_to_port_name` table of `process_client_dc_pc_v3_A0_A1`,
indexed by the numeric `GameVersion` value. -/
def version_to_port_name : GameVersion → String
  | GameVersion.DC => "console-login"
  | GameVersion.PC => "pc-login"
  | GameVersion.PATCH => "bb-patch"
  | GameVersion.GC => "console-login"
  | GameVersion.XB => "console-login"
  | GameVersion.BB => "bb-login"

/-- The 69 departure frames the handler sends: one per mirrored lobby member
with a nonzero guild-card number, flag and leaving id the slot index, leader
id the session's own lobby client id. -/
def return_to_home_leaves (session : LinkedSession) : List Send :=
  (session.lobby_players.enum.filter
    (fun p => p.2.guild_card_number != 0)).map
    (fun p => ⟨false, 0x69, p.1 % 256,
      Body.leaveLobby (p.1 % 256) session.lobby_client_id⟩)

/-- `process_client_dc_pc_v3_A0_A1`: unlinked sessions forward the command;
linked sessions delete all mirrored players, get a text message and the
saved client config, and are redirected to the configured login port, with
the A0/A1 suppressed. -/
def process_client_dc_pc_v3_A0_A1 (st : ServerState)
    (session : LinkedSession) : Except String (HRType × List Send) :=
  match session.license with
  | none => Except.ok (HRType.FORWARD, [])
  | some lic =>
    let tail := fun (address : Nat) =>
      [(⟨false, 0x11, 0,
          Body.text ("You\x27ve returned to\n\tC6" ++ st.name)⟩ : Send),
        ⟨false, 0x04, 0, Body.clientConfig 0x00010000 lic.serial_number
          session.newserv_client_config⟩,
        ⟨false, 0x19, 0, Body.reconnect address
          (st.name_to_port_config (version_to_port_name session.version))⟩]
    if session.client_channel.is_virtual_connection then
      if session.next_destination.family ≠ AF_INET then
        Except.error "ss not AF_INET"
      else
        Except.ok (HRType.SUPPRESS,
          return_to_home_leaves session ++ tail session.next_destination.addr)
    else
      if session.client_channel.local_addr.family ≠ AF_INET then
        Except.error "existing connection is not ipv4"
      else
        Except.ok (HRType.SUPPRESS,
          return_to_home_leaves session ++
            tail session.client_channel.local_addr.addr)

theorem return_to_home_leaves_command (s : LinkedSession) (m : Send)
    (hm : m ∈ return_to_home_leaves s) : m.command = 0x69 := by
  simp only [return_to_home_leaves, List.mem_map] at hm
  obtain ⟨p, hp, rfl⟩ := hm
  rfl

theorem enumFrom_filter_snd_length {α : Type} (q : α → Bool) :
    ∀ (n : Nat) (l : List α),
      ((List.enumFrom n l).filter (fun p => q p.2)).length =
        (l.filter q).length := by
  intro n l
  induction l generalizing n with
  | nil => rfl
  | cons a l ih =>
    by_cases hq : q a <;>
      simp [List.enumFrom, List.filter_cons, hq, ih]

theorem return_to_home_leaves_length (s : LinkedSession) :
    (return_to_home_leaves s).length =
      (s.lobby_players.filter (fun p => p.guild_card_number != 0)).length := by
  rw [return_to_home_leaves, List.length_map, List.enum]
  exact enumFrom_filter_snd_length (fun p => p.guild_card_number != 0) 0
    s.lobby_players

theorem return_to_home_leaves_filter_ne (s : LinkedSession) (c : Nat)
    (hc : c ≠ 0x69) :
    (return_to_home_leaves s).filter (fun m => m.command == c) = [] := by
  rw [List.filter_eq_nil_iff]
  intro m hm
  rw [return_to_home_leaves_command s m hm]
  simp only [beq_iff_eq]
  exact fun h => hc h.symm

theorem return_to_home_leaves_filter_69 (s : LinkedSession) :
    (return_to_home_leaves s).filter (fun m => m.command == 0x69) =
      return_to_home_leaves s := by
  rw [List.filter_eq_self]
  intro m hm
  rw [return_to_home_leaves_command s m hm]
  rfl

/-- C5: for an unlinked session A0/A1 is forwarded with no sends.  For a
linked session (on either connection kind, with an IPv4 endpoint) the
result is SUPPRESS, with one 69 frame per mirrored member with nonzero
guild-card number, exactly one 04 frame carrying the saved newserv client
config and the license serial as guild-card number, exactly one 11 text
message, and exactly one 19 reconnect whose port is the configured login
port for the session's variant. -/
theorem C5_return_to_home (st : ServerState) (s : LinkedSession) :
    (s.license = none →
      process_client_dc_pc_v3_A0_A1 st s =
        Except.ok (HRType.FORWARD, [])) ∧
    (∀ lic, s.license = some lic →
      ∀ out, process_client_dc_pc_v3_A0_A1 st s = Except.ok out →
        out.1 = HRType.SUPPRESS ∧
        (out.2.filter (fun m => m.command == 0x69)).length =
          (s.lobby_players.filter (fun p => p.guild_card_number != 0)).length ∧
        out.2.filter (fun m => m.command == 0x04) =
          [⟨false, 0x04, 0, Body.clientConfig 0x00010000 lic.serial_number
            s.newserv_client_config⟩] ∧
        (out.2.filter (fun m => m.command == 0x11)).length = 1 ∧
        out.2.filter (fun m => m.command == 0x19) =
          [⟨false, 0x19, 0, Body.reconnect
            (if s.client_channel.is_virtual_connection = true then
              s.next_destination.addr
            else s.client_channel.local_addr.addr)
            (st.name_to_port_config (version_to_port_name s.version))⟩]) := by
  constructor
  · intro hlic
    simp [process_client_dc_pc_v3_A0_A1, hlic]
  · intro lic hlic out hout
    simp only [process_client_dc_pc_v3_A0_A1, hlic] at hout
    by_cases hv : s.client_channel.is_virtual_connection = true
    · rw [if_pos hv] at hout
      by_cases hfam : s.next_destination.family ≠ AF_INET
      · rw [if_pos hfam] at hout
        exact absurd hout (by simp)
      · rw [if_neg hfam] at hout
        injection hout with h
        subst h
        refine ⟨rfl, ?_, ?_, ?_, ?_⟩ <;>
          simp [List.filter_append, return_to_home_leaves_filter_69,
            return_to_home_leaves_filter_ne s 0x04 (by norm_num),
            return_to_home_leaves_filter_ne s 0x11 (by norm_num),
            return_to_home_leaves_filter_ne s 0x19 (by norm_num),
            return_to_home_leaves_length, hv]
    · rw [if_neg hv] at hout
      by_cases hfam : s.client_channel.local_addr.family ≠ AF_INET
      · rw [if_pos hfam] at hout
        exact absurd hout (by simp)
      · rw [if_neg hfam] at hout
        injection hout with h
        subst h
        refine ⟨rfl, ?_, ?_, ?_, ?_⟩ <;>
          simp [List.filter_append, return_to_home_leaves_filter_69,
            return_to_home_leaves_filter_ne s 0x04 (by norm_num),
            return_to_home_leaves_filter_ne s 0x11 (by norm_num),
            return_to_home_leaves_filter_ne s 0x19 (by norm_num),
            return_to_home_leaves_length, hv]

/-- Concrete server state and session for the C5 witness. -/
def sampleServerState : ServerState :=
  { name := "newserv", name_to_port_config := fun _ => 5100 }

/-- Session in a three-member lobby (slot 1 empty). -/
def sessionHome : LinkedSession :=
  { sampleSession with lobby_players :=
      [⟨100, "a"⟩, ⟨0, ""⟩, ⟨200, "b"⟩] }

/-- Witness for C5: the concrete linked run emits exactly one reconnect,
pointing at the configured login port. -/
theorem C5_return_to_home_witness :
    (process_client_dc_pc_v3_A0_A1 sampleServerState sessionHome).map
        (fun r => r.2.filter (fun m => m.command == 0x19)) =
      Except.ok [⟨false, 0x19, 0, Body.reconnect
        sessionHome.client_channel.local_addr.addr
        (sampleServerState.name_to_port_config
          (version_to_port_name sessionHome.version))⟩] := by
  cases hrun : process_client_dc_pc_v3_A0_A1 sampleServerState sessionHome with
  | error e =>
    simp [process_client_dc_pc_v3_A0_A1, sessionHome, sampleSession,
      AF_INET] at hrun
  | ok out =>
    have h5 := ((C5_return_to_home sampleServerState sessionHome).2
      ⟨2000⟩ rfl out hrun).2.2.2.2
    rw [show (if sessionHome.client_channel.is_virtual_connection = true then
        sessionHome.next_destination.addr
      else sessionHome.client_channel.local_addr.addr) =
        sessionHome.client_channel.local_addr.addr from rfl] at h5
    simp only [Except.map, h5]

/-! ### Claim C10: lobby-player mirror updates on 65/67/68 -/

/-- `Entry::lobby_data` at field level. -/
structure LobbyDataEntry where
  client_id : Nat
  guild_card : Nat
deriving DecidableEq, Repr

/-- One per-slot entry of a 65/67/68 join command: `lobby_data` plus the
display name the mirror copies. -/
structure JoinEntry where
  lobby_data : LobbyDataEntry
  name : String
deriving DecidableEq, Repr

/-- The 65/67/68 join command at field level. -/
structure S_JoinLobby_65_67_68 where
  client_id : Nat
  leader_id : Nat
  lobby_number : Nat
  event : Nat
  entries : List JoinEntry
deriving DecidableEq, Repr

/-- `update_leader_id`: set the leader and, when the session's own client
becomes leader, tell the client (`send_text_message`, command B0). -/
def update_leader_id (session : LinkedSession) (leader_id : Nat) :
    LinkedSession × List Send :=
  if session.leader_client_id ≠ leader_id then
    ({ session with leader_client_id := leader_id },
      if leader_id = session.lobby_client_id then
        [⟨false, 0xB0, 0, Body.text "$C6You are now the leader"⟩]
      else [])
  else (session, [])

/-- One iteration of the entry loop in `process_server_65_67_68`: an entry
whose `client_id` is not below the mirror size is skipped (warning only,
nothing written); otherwise the slot is written with the (possibly
identity-rewritten) guild card and the entry's name.  The accumulator is
(mirror, rewritten entries so far, modified flag). -/
def join_entry_step (license : Option License)
    (remote_guild_card_number : Nat)
    (acc : List LobbyPlayer × List JoinEntry × Bool) (e : JoinEntry) :
    List LobbyPlayer × List JoinEntry × Bool :=
  if acc.1.length ≤ e.lobby_data.client_id then
    (acc.1, acc.2.1 ++ [e], acc.2.2)
  else
    match license with
    | some lic =>
      if e.lobby_data.guild_card = remote_guild_card_number then
        (acc.1.set e.lobby_data.client_id ⟨lic.serial_number, e.name⟩,
          acc.2.1 ++ [{ e with lobby_data :=
            { e.lobby_data with guild_card := lic.serial_number } }],
          true)
      else
        (acc.1.set e.lobby_data.client_id
          ⟨e.lobby_data.guild_card, e.name⟩, acc.2.1 ++ [e], acc.2.2)
    | none =>
      (acc.1.set e.lobby_data.client_id
        ⟨e.lobby_data.guild_card, e.name⟩, acc.2.1 ++ [e], acc.2.2)

/-- `process_server_65_67_68`: 67 clears the mirror to 12 empty slots (and
latches the no-close-confirmation flag); the size check requires exactly
`flag` entries; then the client id, leader and each in-range entry are
applied, and the event/lobby-number overrides are written into the command.
Returns the updated session and the (possibly modified) command. -/
def process_server_65_67_68 (session : LinkedSession)
    (command flag : Nat) (cmd : S_JoinLobby_65_67_68) :
    Except String (HRType × LinkedSession × S_JoinLobby_65_67_68) :=
  let session0 :=
    if command = 0x67 then
      { session with
        lobby_players := List.replicate 12 ⟨0, ""⟩,
        newserv_client_config :=
          if session.newserv_client_config.flags.no_message_box_close_confirmation_after_lobby_join
          then
            { session.newserv_client_config with flags :=
              { session.newserv_client_config.flags with
                no_message_box_close_confirmation := true } }
          else session.newserv_client_config }
    else session
  if cmd.entries.length ≠ flag then
    Except.error "check_size_t"
  else
    let session1 := { session0 with lobby_client_id := cmd.client_id }
    let session2 := (update_leader_id session1 cmd.leader_id).1
    let r := cmd.entries.foldl
      (join_entry_step session.license session.remote_guild_card_number)
      (session2.lobby_players, [], false)
    let cmd2 := { cmd with
      entries := r.2.1,
      event := if 0 ≤ session.override_lobby_event then
          session.override_lobby_event.toNat
        else cmd.event,
      lobby_number := if 0 ≤ session.override_lobby_number then
          session.override_lobby_number.toNat
        else cmd.lobby_number }
    let modified := r.2.2 || decide (0 ≤ session.override_lobby_event) ||
      decide (0 ≤ session.override_lobby_number)
    Except.ok (if modified then HRType.MODIFIED else HRType.FORWARD,
      { session2 with lobby_players := r.1 }, cmd2)

theorem join_entry_step_length (license : Option License) (remote : Nat)
    (acc : List LobbyPlayer × List JoinEntry × Bool) (e : JoinEntry) :
    (join_entry_step license remote acc e).1.length = acc.1.length := by
  by_cases h : acc.1.length ≤ e.lobby_data.client_id
  · simp [join_entry_step, h]
  · cases license with
    | none => simp [join_entry_step, h]
    | some lic =>
      by_cases hg : e.lobby_data.guild_card = remote <;>
        simp [join_entry_step, h, hg]

theorem foldl_join_entry_length (license : Option License) (remote : Nat) :
    ∀ (entries : List JoinEntry)
      (acc : List LobbyPlayer × List JoinEntry × Bool),
      (entries.foldl (join_entry_step license remote) acc).1.length =
        acc.1.length := by
  intro entries
  induction entries with
  | nil => intro acc; rfl
  | cons e entries ih =>
    intro acc
    rw [List.foldl_cons, ih, join_entry_step_length]

theorem update_leader_id_lobby_players (s : LinkedSession) (lid : Nat) :
    (update_leader_id s lid).1.lobby_players = s.lobby_players := by
  by_cases h : s.leader_client_id ≠ lid <;> simp [update_leader_id, h]

/-- C10: an entry whose client id is not below the mirror size modifies no
mirror slot; every step preserves the mirror size; given the size check
passes, the handler does not fail, after a 67 the mirror holds exactly 12
slots, and after a 65/68 it keeps its previous size. -/
theorem C10_lobby_mirror_bounds :
    (∀ (license : Option License) (remote : Nat)
      (acc : List LobbyPlayer × List JoinEntry × Bool) (e : JoinEntry),
      acc.1.length ≤ e.lobby_data.client_id →
      (join_entry_step license remote acc e).1 = acc.1) ∧
    (∀ (license : Option License) (remote : Nat)
      (acc : List LobbyPlayer × List JoinEntry × Bool) (e : JoinEntry),
      (join_entry_step license remote acc e).1.length = acc.1.length) ∧
    (∀ (s : LinkedSession) (command flag : Nat) (cmd : S_JoinLobby_65_67_68),
      cmd.entries.length = flag →
      (process_server_65_67_68 s command flag cmd).isOk = true) ∧
    (∀ (s : LinkedSession) (flag : Nat) (cmd : S_JoinLobby_65_67_68)
      (out : HRType × LinkedSession × S_JoinLobby_65_67_68),
      cmd.entries.length = flag →
      process_server_65_67_68 s 0x67 flag cmd = Except.ok out →
      out.2.1.lobby_players.length = 12) ∧
    (∀ (s : LinkedSession) (command flag : Nat)
      (cmd : S_JoinLobby_65_67_68)
      (out : HRType × LinkedSession × S_JoinLobby_65_67_68),
      command ≠ 0x67 → cmd.entries.length = flag →
      process_server_65_67_68 s command flag cmd = Except.ok out →
      out.2.1.lobby_players.length = s.lobby_players.length) := by
  refine ⟨?_, join_entry_step_length, ?_, ?_, ?_⟩
  · intro license remote acc e h
    simp [join_entry_step, h]
  · intro s command flag cmd hlen
    simp only [process_server_65_67_68]
    rw [if_neg (by omega)]
    rfl
  · intro s flag cmd out hlen hout
    simp only [process_server_65_67_68, if_pos rfl] at hout
    rw [if_neg (by omega)] at hout
    injection hout with h
    subst h
    simp only [foldl_join_entry_length, update_leader_id_lobby_players]
    rfl
  · intro s command flag cmd out hcmd hlen hout
    simp only [process_server_65_67_68] at hout
    rw [if_neg hcmd, if_neg (by omega)] at hout
    injection hout with h
    subst h
    simp only [foldl_join_entry_length, update_leader_id_lobby_players]

/-- Witness for C10: a 67 with one out-of-range entry (client id 50)
succeeds and leaves a 12-slot mirror. -/
theorem C10_lobby_mirror_bounds_witness :
    (process_server_65_67_68 sampleSession 0x67 1
        { client_id := 0, leader_id := 0, lobby_number := 1, event := 0,
          entries := [⟨⟨50, 777⟩, "x"⟩] }).isOk = true :=
  C10_lobby_mirror_bounds.2.2.1 sampleSession 0x67 1
    { client_id := 0, leader_id := 0, lobby_number := 1, event := 0,
      entries := [⟨⟨50, 777⟩, "x"⟩] } rfl

/-! ### Claim C8: send_stream_file_bb -/

/-- One index entry of `system/blueburst/streamfile.ind`
(`S_StreamFileIndexEntry_BB_01EB`): filename, size, checksum. -/
structure StreamFileEntry where
  filename : String
  size : Nat
  checksum : Nat
deriving DecidableEq, Repr

/-- A send performed by `send_stream_file_bb`: the 01EB index command
(flag = entry count) or one 02EB chunk (its `chunk_index` field and the
byte count passed to `send_command`; a full chunk is the whole
`S_StreamFileChunk_BB_02EB`, 4-byte chunk_index header plus 0x6800 data
bytes). -/
inductive StreamSend where
  | indexCmd (flag : Nat)
  | chunkCmd (chunk_index : Nat) (size : Nat)
deriving DecidableEq, Repr

/-- `memcpy(&chunk_cmd.data[i], v.data(), v.length())` on a byte buffer. -/
def listWriteAt (l : List Nat) (i : Nat) (v : List Nat) : List Nat :=
  l.take i ++ v ++ l.drop (i + v.length)

/-- The streaming state across files: the chunk buffer fill level (never
reset by a partial flush, exactly as in the source), the next chunk index,
the 0x6800-byte chunk buffer, and the sends so far. -/
structure StreamState where
  buffer_offset : Nat
  chunk_index : Nat
  buffer : List Nat
  sends : List StreamSend
deriving DecidableEq, Repr

/-- The inner `while (file_data_remaining)` loop of `send_stream_file_bb`,
with structural fuel (the caller passes `rem.length`; the loop consumes at
least one byte per iteration since `buffer_offset < 0x6800` throughout, so
the fuel never runs out on reachable states). -/
def streamChunkGo : Nat → StreamState → List Nat → StreamState
  | 0, st, _ => st
  | Nat.succ fuel, st, rem =>
    if rem.length = 0 then st
    else
      let read_size := min (0x6800 - st.buffer_offset) rem.length
      let buffer2 := listWriteAt st.buffer st.buffer_offset
        (rem.take read_size)
      let bo2 := st.buffer_offset + read_size
      let rem2 := rem.drop read_size
      if bo2 = 0x6800 then
        streamChunkGo fuel
          { buffer_offset := 0, chunk_index := st.chunk_index + 1,
            buffer := buffer2,
            sends := st.sends ++
              [StreamSend.chunkCmd st.chunk_index (4 + 0x6800)] }
          rem2
      else
        streamChunkGo fuel
          { st with buffer_offset := bo2, buffer := buffer2 } rem2

/-- Stream one file's bytes into the chunk buffer. -/
def streamFileChunkLoop (st : StreamState) (rem : List Nat) : StreamState :=
  streamChunkGo rem.length st rem

/-- The per-entry body of the outer `for` loop: size check against the
index, stream the body, then — still inside the loop — flush a partial
chunk with `(buffer_offset + 15) & ~3` bytes, without resetting
`buffer_offset` or incrementing `chunk_index`. -/
def stream_entry_step (file_contents : String → List Nat)
    (st : StreamState) (e : StreamFileEntry) : Except String StreamState :=
  if (file_contents e.filename).length ≠ e.size then
    Except.error "does not match size in stream file index"
  else
    let st2 := streamFileChunkLoop st (file_contents e.filename)
    if 0 < st2.buffer_offset then
      Except.ok { st2 with sends := st2.sends ++
        [StreamSend.chunkCmd st2.chunk_index
          ((st2.buffer_offset + 15) / 4 * 4)] }
    else Except.ok st2

/-- `send_stream_file_bb`: send the 01EB index (flag = entry count), then
stream each indexed file's body in 0x6800-byte 02EB chunks. -/
def send_stream_file_bb (entries : List StreamFileEntry)
    (file_contents : String → List Nat) :
    Except String (List StreamSend) :=
  (entries.foldlM (stream_entry_step file_contents)
    { buffer_offset := 0, chunk_index := 0,
      buffer := List.replicate 0x6800 0,
      sends := [StreamSend.indexCmd entries.length] }).map
    (fun st => st.sends)

/-- The chunk indices of a send list, in order. -/
def chunkIndices (l : List StreamSend) : List Nat :=
  l.filterMap (fun s => match s with
    | StreamSend.chunkCmd i _ => some i
    | _ => none)

/-- Invariant carried by the streaming state: chunk indices recorded so far
are non-decreasing and bounded by the next index; every recorded chunk is
either a full chunk (header + 0x6800 bytes) or a 4-byte-aligned partial
flush of at most a full buffer; and the buffer is never full at a loop
head. -/
def StreamInv (st : StreamState) : Prop :=
  List.Pairwise (· ≤ ·) (chunkIndices st.sends) ∧
  (∀ i ∈ chunkIndices st.sends, i ≤ st.chunk_index) ∧
  (∀ m ∈ st.sends, ∀ i sz, m = StreamSend.chunkCmd i sz →
    sz = 4 + 0x6800 ∨ ∃ b, 0 < b ∧ b ≤ 0x6800 ∧ sz = (b + 15) / 4 * 4) ∧
  st.buffer_offset < 0x6800

theorem chunkIndices_append (l₁ l₂ : List StreamSend) :
    chunkIndices (l₁ ++ l₂) = chunkIndices l₁ ++ chunkIndices l₂ := by
  simp [chunkIndices]

theorem chunkIndices_chunk (i sz : Nat) :
    chunkIndices [StreamSend.chunkCmd i sz] = [i] := rfl

theorem streamInv_push_chunk (st : StreamState) (sz : Nat)
    (hinv : StreamInv st)
    (hsz : sz = 4 + 0x6800 ∨ ∃ b, 0 < b ∧ b ≤ 0x6800 ∧
      sz = (b + 15) / 4 * 4) :
    List.Pairwise (· ≤ ·)
      (chunkIndices (st.sends ++ [StreamSend.chunkCmd st.chunk_index sz])) ∧
    (∀ i ∈ chunkIndices
        (st.sends ++ [StreamSend.chunkCmd st.chunk_index sz]),
      i ≤ st.chunk_index) ∧
    (∀ m ∈ st.sends ++ [StreamSend.chunkCmd st.chunk_index sz],
      ∀ i sz2, m = StreamSend.chunkCmd i sz2 →
      sz2 = 4 + 0x6800 ∨ ∃ b, 0 < b ∧ b ≤ 0x6800 ∧
        sz2 = (b + 15) / 4 * 4) := by
  obtain ⟨hp, hb, hs, _⟩ := hinv
  refine ⟨?_, ?_, ?_⟩
  · rw [chunkIndices_append, chunkIndices_chunk, List.pairwise_append]
    exact ⟨hp, List.pairwise_singleton _ _,
      by intro x hx y hy; rw [List.mem_singleton] at hy; subst hy;
         exact hb x hx⟩
  · rw [chunkIndices_append, chunkIndices_chunk]
    intro i hi
    rcases List.mem_append.mp hi with h | h
    · exact hb i h
    · rw [List.mem_singleton] at h; omega
  · intro m hm i sz2 hm2
    rcases List.mem_append.mp hm with h | h
    · exact hs m h i sz2 hm2
    · rw [List.mem_singleton] at h
      subst h
      cases hm2
      exact hsz

theorem streamChunkGo_spec (fuel : Nat) :
    ∀ (st : StreamState) (rem : List Nat), StreamInv st →
      StreamInv (streamChunkGo fuel st rem) ∧
      st.chunk_index ≤ (streamChunkGo fuel st rem).chunk_index ∧
      ∃ l, (streamChunkGo fuel st rem).sends = st.sends ++ l := by
  induction fuel with
  | zero =>
    intro st rem hinv
    exact ⟨hinv, Nat.le_refl _, [], by simp [streamChunkGo]⟩
  | succ fuel ih =>
    intro st rem hinv
    rw [streamChunkGo]
    by_cases h0 : rem.length = 0
    · rw [if_pos h0]
      exact ⟨hinv, Nat.le_refl _, [], by simp⟩
    · rw [if_neg h0]
      simp only []
      by_cases hfull : st.buffer_offset +
          min (0x6800 - st.buffer_offset) rem.length = 0x6800
      · rw [if_pos hfull]
        have hinv2 : StreamInv
            { buffer_offset := 0, chunk_index := st.chunk_index + 1,
              buffer := listWriteAt st.buffer st.buffer_offset
                (rem.take (min (0x6800 - st.buffer_offset) rem.length)),
              sends := st.sends ++
                [StreamSend.chunkCmd st.chunk_index (4 + 0x6800)] } := by
          have hpush := streamInv_push_chunk st (4 + 0x6800) hinv (Or.inl rfl)
          refine ⟨hpush.1, ?_, hpush.2.2, by norm_num⟩
          intro i hi
          exact Nat.le_succ_of_le (hpush.2.1 i hi)
        obtain ⟨ha, hb2, l, hl⟩ := ih _ _ hinv2
        refine ⟨ha, Nat.le_trans (Nat.le_succ _) hb2,
          [StreamSend.chunkCmd st.chunk_index (4 + 0x6800)] ++ l, ?_⟩
        rw [hl]
        simp
      · rw [if_neg hfull]
        have hmin : min (0x6800 - st.buffer_offset) rem.length ≤
            0x6800 - st.buffer_offset := Nat.min_le_left _ _
        have hinv2 : StreamInv
            { st with
              buffer_offset := st.buffer_offset +
                min (0x6800 - st.buffer_offset) rem.length,
              buffer := listWriteAt st.buffer st.buffer_offset
                (rem.take (min (0x6800 - st.buffer_offset) rem.length)) } := by
          obtain ⟨hp, hb, hs, hbo⟩ := hinv
          refine ⟨hp, hb, hs, ?_⟩
          show st.buffer_offset +
            min (0x6800 - st.buffer_offset) rem.length < 0x6800
          omega
        obtain ⟨ha, hb2, l, hl⟩ := ih _ _ hinv2
        exact ⟨ha, hb2, l, hl⟩

theorem stream_entry_step_spec (fc : String → List Nat)
    (st : StreamState) (e : StreamFileEntry) (st2 : StreamState)
    (hinv : StreamInv st)
    (hok : stream_entry_step fc st e = Except.ok st2) :
    StreamInv st2 ∧ ∃ l, st2.sends = st.sends ++ l := by
  simp only [stream_entry_step, streamFileChunkLoop] at hok
  by_cases hsz : (fc e.filename).length ≠ e.size
  · rw [if_pos hsz] at hok
    exact absurd hok (by simp)
  · rw [if_neg hsz] at hok
    obtain ⟨ha, _, l, hl⟩ :=
      streamChunkGo_spec (fc e.filename).length st (fc e.filename) hinv
    by_cases hbo : 0 < (streamChunkGo (fc e.filename).length st
        (fc e.filename)).buffer_offset
    · rw [if_pos hbo] at hok
      injection hok with h
      subst h
      obtain ⟨hp2, hb2, hs2, hbo2⟩ := ha
      constructor
      · have hpush := streamInv_push_chunk
          (streamChunkGo (fc e.filename).length st (fc e.filename))
          (((streamChunkGo (fc e.filename).length st
              (fc e.filename)).buffer_offset + 15) / 4 * 4)
          ⟨hp2, hb2, hs2, hbo2⟩
          (Or.inr ⟨(streamChunkGo (fc e.filename).length st
              (fc e.filename)).buffer_offset,
            hbo, by omega, rfl⟩)
        exact ⟨hpush.1, hpush.2.1, hpush.2.2, hbo2⟩
      · refine ⟨l ++ [StreamSend.chunkCmd
          (streamChunkGo (fc e.filename).length st
            (fc e.filename)).chunk_index
          (((streamChunkGo (fc e.filename).length st
            (fc e.filename)).buffer_offset + 15) / 4 * 4)], ?_⟩
        rw [show (streamChunkGo (fc e.filename).length st
          (fc e.filename)).sends = st.sends ++ l from hl]
        simp
    · rw [if_neg hbo] at hok
      injection hok with h
      subst h
      exact ⟨ha, l, hl⟩

theorem stream_foldlM_spec (fc : String → List Nat) :
    ∀ (entries : List StreamFileEntry) (st : StreamState)
      (stf : StreamState), StreamInv st →
      entries.foldlM (stream_entry_step fc) st = Except.ok stf →
      StreamInv stf ∧ ∃ l, stf.sends = st.sends ++ l := by
  intro entries
  induction entries with
  | nil =>
    intro st stf hinv hok
    rw [List.foldlM_nil] at hok
    injection hok with h
    subst h
    exact ⟨hinv, [], by simp⟩
  | cons e entries ih =>
    intro st stf hinv hok
    rw [List.foldlM_cons] at hok
    cases hstep : stream_entry_step fc st e with
    | error err =>
      rw [hstep] at hok
      exact Except.noConfusion hok
    | ok st1 =>
      rw [hstep] at hok
      obtain ⟨h1, l1, hl1⟩ := stream_entry_step_spec fc st e st1 hinv hstep
      obtain ⟨h2, l2, hl2⟩ := ih st1 stf h1 hok
      exact ⟨h2, l1 ++ l2, by rw [hl2, hl1, List.append_assoc]⟩

/-- C8 (amended): every successful `send_stream_file_bb` run starts with
one 01EB whose flag equals the number of index entries; the chunk indices
of the 02EB sends are non-decreasing across the whole stream; every full
chunk is transmitted as the whole chunk struct (4-byte chunk_index header
plus exactly 0x6800 data bytes); and every partial flush (of `b` buffered
data bytes, `0 < b ≤ 0x6800`) is transmitted with `(b + 15) & ~3` bytes —
4-byte aligned, but 8 bytes more than header+data rounded up to 4. -/
theorem C8_stream_file (entries : List StreamFileEntry)
    (fc : String → List Nat) (out : List StreamSend)
    (hout : send_stream_file_bb entries fc = Except.ok out) :
    out.head? = some (StreamSend.indexCmd entries.length) ∧
    List.Pairwise (· ≤ ·) (chunkIndices out) ∧
    (∀ m ∈ out, ∀ i sz, m = StreamSend.chunkCmd i sz →
      sz = 4 + 0x6800 ∨ ∃ b, 0 < b ∧ b ≤ 0x6800 ∧
        sz = (b + 15) / 4 * 4) ∧
    (∀ b, 0 < b → b ≤ 0x6800 → (b + 15) / 4 * 4 % 4 = 0 ∧
      (b + 15) / 4 * 4 = (4 + b + 3) / 4 * 4 + 8) := by
  simp only [send_stream_file_bb] at hout
  cases hfold : entries.foldlM (stream_entry_step fc)
      { buffer_offset := 0, chunk_index := 0,
        buffer := List.replicate 0x6800 0,
        sends := [StreamSend.indexCmd entries.length] } with
  | error err =>
    rw [hfold] at hout
    exact absurd hout (by simp [Except.map])
  | ok stf =>
    rw [hfold] at hout
    simp only [Except.map, Except.ok.injEq] at hout
    subst hout
    have hinv0 : StreamInv
        { buffer_offset := 0, chunk_index := 0,
          buffer := List.replicate 0x6800 0,
          sends := [StreamSend.indexCmd entries.length] } := by
      refine ⟨?_, ?_, ?_, by norm_num⟩
      · exact List.Pairwise.nil
      · intro i hi
        rw [show chunkIndices [StreamSend.indexCmd entries.length] = []
          from rfl] at hi
        exact absurd hi (List.not_mem_nil i)
      · intro m hm i sz hm2
        rw [List.mem_singleton] at hm
        subst hm
        cases hm2
    obtain ⟨⟨hp, _, hs, _⟩, l, hl⟩ :=
      stream_foldlM_spec fc entries _ stf hinv0 hfold
    refine ⟨?_, hp, hs, ?_⟩
    · rw [hl]
      rfl
    · intro b h1 h2
      omega

/-- Witness for C8 at a concrete input (no files): the index command goes
out first with flag 0. -/
theorem C8_stream_file_witness :
    ([StreamSend.indexCmd 0] : List StreamSend).head? =
      some (StreamSend.indexCmd ([] : List StreamFileEntry).length) :=
  (C8_stream_file [] (fun _ => []) [StreamSend.indexCmd 0] rfl).1

/-- C8 counterexample: one indexed 4-byte file; the code transmits the
trailing short chunk with `(4 + 15) & ~3 = 16` bytes, which is neither the
4 buffered data bytes rounded up to 4 (= 4) nor header+data rounded up to 4
(= 8), refuting the claim's "its transmitted size is the buffered byte
count rounded up to a multiple of 4". -/
theorem C8_counterexample :
    send_stream_file_bb [⟨"f", 4, 0⟩] (fun _ => [1, 2, 3, 4]) =
      Except.ok [StreamSend.indexCmd 1, StreamSend.chunkCmd 0 16] ∧
    (16 : Nat) ≠ (4 + 3) / 4 * 4 ∧ (16 : Nat) ≠ (4 + 4 + 3) / 4 * 4 := by
  refine ⟨rfl, by norm_num, by norm_num⟩

end Newserv
